import Mathlib

/-!
Verification of the query aggregation and merge layer of the sekoropo-piecejobs
service code (dispute.service.ts, payment.service.ts, review.service.ts,
application.service.ts, job service).

Modelling conventions:
- JS numbers are embedded as exact rationals; ISO-8601 timestamp strings are
  embedded as their `getTime()` values (an injective, order-preserving image),
  so comparisons and subtraction of dates act on integers.
- The Appwrite `listDocuments` call is modelled as: filter the collection by
  the AND of the equality predicates, sort by the requested key (descending
  `created_at` throughout this code), then apply offset and limit; the reported
  `total` is the number of matching documents before pagination, as Appwrite
  reports it.
- `Array.prototype.sort` with comparator `(a, b) => keyB - keyA` is a stable
  descending sort; `List.insertionSort` with the reflexive descending relation
  is exactly that stable sort (ties keep their input order).
- Fallible store calls are <Except String>; `Promise.all` surfaces the error of
  the first listed failing call; a caught error `e` is reported through the
  JS expression `e.message || fallback`, modelled by `jsOr`.
-/

/-- jsOr models the JS idiom `s || fallback` for strings: the fallback is used
exactly when the string is empty (falsy). -/
def jsOr (s fallback : String) : String :=
  if s = "" then fallback else s

/-- jsOrOpt models `x || fallback` where `x` is an optional string (possibly
`undefined`): the fallback is used when the value is absent or empty. -/
def jsOrOpt (o : Option String) (fallback : String) : String :=
  match o with
  | none => fallback
  | some s => jsOr s fallback

/-- jsRound models JS `Math.round`: nearest integer, halves toward positive
infinity, i.e. the floor of `q + 1/2` (computed by flooring division). -/
def jsRound (q : ℚ) : ℤ :=
  Int.fdiv (q + 1/2).num ((q + 1/2).den : ℤ)

/-- jsRound10 models `Math.round(x * 10) / 10` (round to 1 decimal place). -/
def jsRound10 (q : ℚ) : ℚ := (jsRound (q * 10) : ℚ) / 10

/-- jsRound100 models `Math.round(x * 100) / 100` (round to 2 decimal places). -/
def jsRound100 (q : ℚ) : ℚ := (jsRound (q * 100) : ℚ) / 100

/-- Modelled from the spec: round-half-away-from-zero to the nearest integer,
the rounding mode the specification names for domain averages. -/
def roundHalfAway (q : ℚ) : ℤ :=
  if 0 ≤ q then jsRound q else -(jsRound (-q))

/-- Modelled from the spec: round-half-away-from-zero to 1 decimal place. -/
def roundHalfAway10 (q : ℚ) : ℚ := (roundHalfAway (q * 10) : ℚ) / 10

/-- Modelled from the spec: round-half-away-from-zero to 2 decimal places. -/
def roundHalfAway100 (q : ℚ) : ℚ := (roundHalfAway (q * 100) : ℚ) / 100

/-- keyGE is the descending comparison relation induced by an integer sort key:
`a` may come before `b` when `key b ≤ key a`.  A stable sort by this relation
is the semantics of JS `sort((a, b) => key(b) - key(a))`. -/
def keyGE (key : α → Int) (a b : α) : Prop := key b ≤ key a

instance (key : α → Int) : DecidableRel (keyGE key) :=
  fun a b => inferInstanceAs (Decidable (key b ≤ key a))

instance (key : α → Int) : IsTotal α (keyGE key) :=
  ⟨fun a b => le_total (key b) (key a)⟩

instance (key : α → Int) : IsTrans α (keyGE key) :=
  ⟨fun _ _ _ h1 h2 => le_trans h2 h1⟩

/-- sortDescBy is a stable descending sort by an integer key: the semantics of
`array.sort((a, b) => key(b) - key(a))`. -/
def sortDescBy (key : α → Int) (l : List α) : List α :=
  List.insertionSort (keyGE key) l

/-- uniqueByKeyAux recurses on an explicit bound so the recursion is
structural: per key value, it keeps only the first element carrying it. -/
def uniqueByKeyAux (key : α → String) : Nat → List α → List α
  | _, [] => []
  | 0, _ => []
  | fuel + 1, x :: xs =>
      x :: uniqueByKeyAux key fuel (xs.filter (fun y => key y != key x))

/-- uniqueByKey keeps, for every key value, only the first element of the list
carrying it.  This is the semantics of the source idiom
`arr.filter((d, index, self) => index === self.findIndex(x => x.id === d.id))`;
the length of the list bounds the recursion depth. -/
def uniqueByKey (key : α → String) (l : List α) : List α :=
  uniqueByKeyAux key l.length l

/-- bump models the JS frequency-map update `m[k] = (m[k] || 0) + 1` on an
insertion-ordered object, represented as an association list. -/
def bump [BEq κ] (m : List (κ × Nat)) (k : κ) : List (κ × Nat) :=
  if m.any (fun p => p.1 == k) then
    m.map (fun p => if p.1 == k then (p.1, p.2 + 1) else p)
  else
    m ++ [(k, 1)]

/-- ApiResponse is the uniform envelope produced by every service method:
`{success: true, data}` or `{success: false, error}`. -/
structure ApiResponse (α : Type) where
  success : Bool
  data : Option α
  error : Option String
deriving DecidableEq

/-- apiOk is the success envelope `{success: true, data}`. -/
def apiOk (a : α) : ApiResponse α := ⟨true, some a, none⟩

/-- apiErr is the failure envelope `{success: false, error}`. -/
def apiErr (e : String) : ApiResponse α := ⟨false, none, some e⟩

/-- PaginatedResponse is the `{documents, total}` shape the list endpoints
return. -/
structure PaginatedResponse (α : Type) where
  documents : List α
  total : Nat
deriving DecidableEq

/-- ListResult is the shape of an Appwrite `listDocuments` response:
the fetched page and the total number of matching documents. -/
structure ListResult (α : Type) where
  documents : List α
  total : Nat
deriving DecidableEq

/-- listDocuments models an Appwrite query: filter the collection, sort
descending by the key (every query in this layer orders by `created_at`
descending), then apply offset and limit; `total` counts all matches. -/
def listDocuments (store : List α) (pred : α → Bool) (key : α → Int)
    (limit offset : Nat) : ListResult α :=
  { documents := ((sortDescBy key (store.filter pred)).drop offset).take limit
    total := (store.filter pred).length }

/-- listDocumentsAll models an Appwrite query with no limit or offset, as the
statistics endpoints issue. -/
def listDocumentsAll (store : List α) (pred : α → Bool) (key : α → Int) :
    List α :=
  sortDescBy key (store.filter pred)

/-- promiseAll2 models `Promise.all([p1, p2])`: both results when both succeed,
otherwise the error of the first listed failing call. -/
def promiseAll2 (a : Except String α) (b : Except String β) :
    Except String (α × β) :=
  match a, b with
  | .error e, _ => .error e
  | .ok _, .error e => .error e
  | .ok x, .ok y => .ok (x, y)

/-- Dispute is the document shape read by the dispute query layer: identity,
parties, lifecycle fields and the timestamps the aggregations use (embedded as
`getTime()` integers; `resolved_at` is optional). -/
structure Dispute where
  id : String
  created_at : Int
  complainant_id : String
  respondent_id : String
  status : String
  priority : String
  dispute_type : String
  resolved_at : Option Int
  assigned_admin_id : Option String
deriving DecidableEq

namespace DisputeService

/-- DisputeFilters models the optional filter argument of
`DisputeService.getAll`. -/
structure DisputeFilters where
  status : Option String
  priority : Option String
  disputeType : Option String
  userId : Option String
deriving DecidableEq

/-- baseFilter is the AND of the optional equality predicates that `getAll`
pushes into every query (lines 86-96 of dispute.service.ts). -/
def baseFilter (f : DisputeFilters) (d : Dispute) : Bool :=
  (match f.status with | some s => d.status == s | none => true) &&
  (match f.priority with | some p => d.priority == p | none => true) &&
  (match f.disputeType with | some t => d.dispute_type == t | none => true)

/-- mergeUnique is the dedup step of `getAll` with a userId filter
(lines 114-117): concatenate the two source results and keep, per `$id`, the
first occurrence in source-query order (complainant results first). -/
def mergeUnique (cdocs rdocs : List Dispute) : List Dispute :=
  uniqueByKey (fun d => d.id) (cdocs ++ rdocs)

/-- mergePageDocs is the documents field `getAll` builds from two source
results (lines 119-123): dedup, stable sort by `created_at` descending, then
`slice(offset, offset + limit)`. -/
def mergePageDocs (cdocs rdocs : List Dispute) (limit offset : Nat) :
    List Dispute :=
  ((sortDescBy (fun d => d.created_at) (mergeUnique cdocs rdocs)).drop
      offset).take limit

/-- getAllFanout is the userId branch of `getAll` after the two source queries
settle, including the surrounding try/catch (lines 100-145): on any source
failure the whole call fails with `error.message || fallback`. -/
def getAllFanout (cRes rRes : Except String (ListResult Dispute))
    (limit offset : Nat) : ApiResponse (PaginatedResponse Dispute) :=
  match promiseAll2 cRes rRes with
  | .error e => apiErr (jsOr e "Failed to fetch disputes")
  | .ok (c, r) =>
      apiOk { documents := mergePageDocs c.documents r.documents limit offset
              total := (mergeUnique c.documents r.documents).length }

/-- complainantQuery is the first source query of the fan-out: the base
filters, plus `complainant_id = userId`, with the caller limit and offset
spread in from the shared `queries` array (lines 103-106). -/
def complainantQuery (store : List Dispute) (f : DisputeFilters)
    (userId : String) (limit offset : Nat) : ListResult Dispute :=
  listDocuments store (fun d => baseFilter f d && d.complainant_id == userId)
    (fun d => d.created_at) limit offset

/-- respondentQuery is the second source query of the fan-out, with
`respondent_id = userId` (lines 107-110). -/
def respondentQuery (store : List Dispute) (f : DisputeFilters)
    (userId : String) (limit offset : Nat) : ListResult Dispute :=
  listDocuments store (fun d => baseFilter f d && d.respondent_id == userId)
    (fun d => d.created_at) limit offset

/-- getAll models `DisputeService.getAll` over a store whose queries all
succeed: the fan-out merge when a userId filter is present, a single query
otherwise. -/
def getAll (store : List Dispute) (f : DisputeFilters) (limit offset : Nat) :
    ApiResponse (PaginatedResponse Dispute) :=
  match f.userId with
  | some uid =>
      getAllFanout (.ok (complainantQuery store f uid limit offset))
        (.ok (respondentQuery store f uid limit offset)) limit offset
  | none =>
      let r := listDocuments store (baseFilter f) (fun d => d.created_at)
        limit offset
      apiOk { documents := r.documents, total := r.total }

/-- getAllPage is the documents field `getAll` returns in the userId branch. -/
def getAllPage (store : List Dispute) (f : DisputeFilters) (userId : String)
    (limit offset : Nat) : List Dispute :=
  mergePageDocs (complainantQuery store f userId limit offset).documents
    (respondentQuery store f userId limit offset).documents limit offset

/-- specMergedSet is the deduplicated sorted merged set the specification
describes.  Modelled from the spec: source queries carry no pagination, the
union is deduplicated by identity and sorted by the sort key; the source under
src/ instead paginates each source query (compare `complainantQuery`). -/
def specMergedSet (store : List Dispute) (f : DisputeFilters)
    (userId : String) : List Dispute :=
  sortDescBy (fun d => d.created_at)
    (uniqueByKey (fun d => d.id)
      ((store.filter (fun d => baseFilter f d && d.complainant_id == userId)) ++
        (store.filter (fun d => baseFilter f d && d.respondent_id == userId))))

/-- getUserDisputesAll models the `role = all` branch of
`DisputeService.getUserDisputes` (lines 194-215): two paginated source
queries, concatenation WITHOUT dedup, stable sort descending, a second
`slice(offset, offset + limit)`, and `total` as the sum of the source totals. -/
def getUserDisputesAll (store : List Dispute) (userId : String)
    (limit offset : Nat) : ApiResponse (PaginatedResponse Dispute) :=
  let c := listDocuments store (fun d => d.complainant_id == userId)
    (fun d => d.created_at) limit offset
  let r := listDocuments store (fun d => d.respondent_id == userId)
    (fun d => d.created_at) limit offset
  let allDisputes :=
    ((sortDescBy (fun d => d.created_at) (c.documents ++ r.documents)).drop
        offset).take limit
  apiOk { documents := allDisputes, total := c.total + r.total }

/-- userDisputesAllPage is the documents field of `getUserDisputesAll`. -/
def userDisputesAllPage (store : List Dispute) (userId : String)
    (limit offset : Nat) : List Dispute :=
  ((sortDescBy (fun d => d.created_at)
      ((listDocuments store (fun d => d.complainant_id == userId)
          (fun d => d.created_at) limit offset).documents ++
        (listDocuments store (fun d => d.respondent_id == userId)
          (fun d => d.created_at) limit offset).documents)).drop offset).take
    limit

end DisputeService

/-- Payment is the document shape read by the payment query layer. -/
structure Payment where
  id : String
  created_at : Int
  payer_id : String
  recipient_id : String
  amount : ℚ
  status : String
deriving DecidableEq

namespace PaymentService

/-- getUserPaymentsAll models the `type = all` branch of
`PaymentService.getUserPayments` (lines 109-139): two paginated source
queries (sent and received), concatenation WITHOUT dedup, stable sort by
`created_at` descending, a second `slice(offset, offset + limit)`, and
`total` as the sum of the source totals. -/
def getUserPaymentsAll (store : List Payment) (userId : String)
    (limit offset : Nat) : ApiResponse (PaginatedResponse Payment) :=
  let sent := listDocuments store (fun p => p.payer_id == userId)
    (fun p => p.created_at) limit offset
  let received := listDocuments store (fun p => p.recipient_id == userId)
    (fun p => p.created_at) limit offset
  let allPayments :=
    ((sortDescBy (fun p => p.created_at)
        (sent.documents ++ received.documents)).drop offset).take limit
  apiOk { documents := allPayments, total := sent.total + received.total }

/-- userPaymentsAllPage is the documents field of `getUserPaymentsAll`. -/
def userPaymentsAllPage (store : List Payment) (userId : String)
    (limit offset : Nat) : List Payment :=
  ((sortDescBy (fun p => p.created_at)
      ((listDocuments store (fun p => p.payer_id == userId)
          (fun p => p.created_at) limit offset).documents ++
        (listDocuments store (fun p => p.recipient_id == userId)
          (fun p => p.created_at) limit offset).documents)).drop offset).take
    limit

/-- PaymentStats is the accumulator and result shape of
`PaymentService.getStats` (lines 312-341). -/
structure PaymentStats where
  totalTransactions : Nat
  totalAmount : ℚ
  pendingAmount : ℚ
  completedAmount : ℚ
  refundedAmount : ℚ
  averageTransactionValue : ℚ
deriving DecidableEq

/-- statsStep is one step of the `payments.reduce` in `getStats`
(lines 312-324). -/
def statsStep (acc : PaymentStats) (payment : Payment) : PaymentStats :=
  let acc := { acc with
    totalTransactions := acc.totalTransactions + 1
    totalAmount := acc.totalAmount + payment.amount }
  if payment.status == "pending" then
    { acc with pendingAmount := acc.pendingAmount + payment.amount }
  else if payment.status == "completed" then
    { acc with completedAmount := acc.completedAmount + payment.amount }
  else if payment.status == "refunded" then
    { acc with refundedAmount := acc.refundedAmount + payment.amount }
  else acc

/-- getStatsOf is the aggregation of `PaymentService.getStats` over the
fetched payments: the reduce, then `averageTransactionValue` set to
`totalAmount / totalTransactions` guarded against an empty set — with no
rounding applied (lines 312-341). -/
def getStatsOf (payments : List Payment) : PaymentStats :=
  let stats := payments.foldl statsStep
    { totalTransactions := 0, totalAmount := 0, pendingAmount := 0,
      completedAmount := 0, refundedAmount := 0,
      averageTransactionValue := 0 }
  { stats with averageTransactionValue :=
      if stats.totalTransactions > 0 then
        stats.totalAmount / stats.totalTransactions
      else 0 }

/-- getStats models `PaymentService.getStats` over a store whose single
unpaginated query succeeds (the optional dateRange adds `created_at` range
predicates to that query; claims here concern the aggregation). -/
def getStats (store : List Payment) : ApiResponse PaymentStats :=
  apiOk (getStatsOf (listDocumentsAll store (fun _ => true)
    (fun p => p.created_at)))

end PaymentService

namespace DisputeService

/-- DisputeStats is the result shape of `DisputeService.getStats`
(lines 417-495), with the two running aggregation fields of its reduce
accumulator. -/
structure DisputeStats where
  totalDisputes : Nat
  openDisputes : Nat
  inReviewDisputes : Nat
  resolvedDisputes : Nat
  closedDisputes : Nat
  totalResolutionTime : ℚ
  resolvedCount : Nat
  disputesByType : List (String × Nat)
  disputesByPriority : List (String × Nat)
deriving DecidableEq

/-- resolutionHours is `(resolvedTime - createdTime) / (1000 * 60 * 60)`:
the dispute age at resolution, in hours. -/
def resolutionHours (created resolved : Int) : ℚ :=
  ((resolved - created : Int) : ℚ) / (1000 * 60 * 60)

/-- disputeStatsStep is one step of the `disputes.reduce` in `getStats`
(lines 443-478).  Note the resolution-time branch tests
`dispute.status === "resolved"`, a value outside the DisputeStatus enum. -/
def disputeStatsStep (acc : DisputeStats) (dispute : Dispute) : DisputeStats :=
  let acc := { acc with totalDisputes := acc.totalDisputes + 1 }
  let acc :=
    if dispute.status == "open" then
      { acc with openDisputes := acc.openDisputes + 1 }
    else if dispute.status == "under_review" then
      { acc with inReviewDisputes := acc.inReviewDisputes + 1 }
    else if dispute.status == "resolved_in_favor_of_seeker" ||
        dispute.status == "resolved_in_favor_of_provider" then
      { acc with resolvedDisputes := acc.resolvedDisputes + 1 }
    else if dispute.status == "cancelled" then
      { acc with closedDisputes := acc.closedDisputes + 1 }
    else acc
  let acc := { acc with
    disputesByType := bump acc.disputesByType dispute.dispute_type
    disputesByPriority := bump acc.disputesByPriority dispute.priority }
  match dispute.resolved_at with
  | some resolved =>
      if dispute.status == "resolved" then
        { acc with
          totalResolutionTime :=
            acc.totalResolutionTime + resolutionHours dispute.created_at resolved
          resolvedCount := acc.resolvedCount + 1 }
      else acc
  | none => acc

/-- getStatsOf is the aggregation of `DisputeService.getStats` over the
fetched disputes, with `averageResolutionTime` as the zero-guarded mean
rounded to 2 decimals (lines 480-495). -/
def getStatsOf (disputes : List Dispute) : DisputeStats × ℚ :=
  let stats := disputes.foldl disputeStatsStep
    { totalDisputes := 0, openDisputes := 0, inReviewDisputes := 0,
      resolvedDisputes := 0, closedDisputes := 0, totalResolutionTime := 0,
      resolvedCount := 0, disputesByType := [], disputesByPriority := [] }
  let averageResolutionTime :=
    if stats.resolvedCount > 0 then
      stats.totalResolutionTime / stats.resolvedCount
    else 0
  (stats, jsRound100 averageResolutionTime)

/-- getStats models `DisputeService.getStats` over a store whose single
unpaginated query succeeds; the second component of the pair is the
`averageResolutionTime` field of the returned data. -/
def getStats (store : List Dispute) : ApiResponse (DisputeStats × ℚ) :=
  apiOk (getStatsOf (listDocumentsAll store (fun _ => true)
    (fun d => d.created_at)))

/-- AdminWorkload is the accumulator and result shape of
`DisputeService.getAdminWorkload` (lines 506-556). -/
structure AdminWorkload where
  totalAssigned : Nat
  inReview : Nat
  resolved : Nat
  totalResolutionTime : ℚ
deriving DecidableEq

/-- workloadStep is one step of the `disputes.reduce` in `getAdminWorkload`
(lines 524-542): a dispute counts as resolved, and contributes its
resolution time, exactly when its status is one of the two resolved values
AND `resolved_at` is present. -/
def workloadStep (acc : AdminWorkload) (dispute : Dispute) : AdminWorkload :=
  let acc := { acc with totalAssigned := acc.totalAssigned + 1 }
  if dispute.status == "under_review" then
    { acc with inReview := acc.inReview + 1 }
  else
    match dispute.resolved_at with
    | some resolved =>
        if dispute.status == "resolved_in_favor_of_seeker" ||
            dispute.status == "resolved_in_favor_of_provider" then
          { acc with
            resolved := acc.resolved + 1
            totalResolutionTime :=
              acc.totalResolutionTime +
                resolutionHours dispute.created_at resolved }
        else acc
    | none => acc

/-- getAdminWorkloadOf is the aggregation of `getAdminWorkload` over the
fetched disputes; the second component is the returned
`averageResolutionTime` (zero-guarded mean, rounded to 2 decimals,
lines 544-555). -/
def getAdminWorkloadOf (disputes : List Dispute) : AdminWorkload × ℚ :=
  let stats := disputes.foldl workloadStep
    { totalAssigned := 0, inReview := 0, resolved := 0,
      totalResolutionTime := 0 }
  let averageResolutionTime :=
    if stats.resolved > 0 then stats.totalResolutionTime / stats.resolved
    else 0
  (stats, jsRound100 averageResolutionTime)

/-- getAdminWorkload models `DisputeService.getAdminWorkload` over a store
whose query (`assigned_admin_id = adminId`, ordered descending) succeeds. -/
def getAdminWorkload (store : List Dispute) (adminId : String) :
    ApiResponse (AdminWorkload × ℚ) :=
  apiOk (getAdminWorkloadOf (listDocumentsAll store
    (fun d => d.assigned_admin_id == some adminId) (fun d => d.created_at)))

end DisputeService

/-- Review is the document shape read by the review layer. -/
structure Review where
  id : String
  created_at : Int
  reviewer_id : String
  reviewee_id : String
  rating : ℚ
  review_type : String
deriving DecidableEq

/-- Profile carries the two derived fields the review side effect writes onto
the reviewee profile document. -/
structure Profile where
  id : String
  average_rating : ℚ
  total_reviews : Nat
deriving DecidableEq

namespace ReviewService

/-- RatingStats is the result shape of `ReviewService.getUserRatingStats`
(lines 237-283). -/
structure RatingStats where
  averageRating : ℚ
  totalReviews : Nat
  ratingDistribution : List (ℚ × Nat)
  recentReviews : List Review
deriving DecidableEq

/-- getUserRatingStatsOf is the aggregation of `getUserRatingStats` over the
fetched reviews (already ordered by `created_at` descending): zeros on the
empty set, otherwise `Math.round((sum / count) * 10) / 10`, the rating
distribution, and the first five reviews (lines 253-283). -/
def getUserRatingStatsOf (reviews : List Review) : RatingStats :=
  if reviews.length == 0 then
    { averageRating := 0, totalReviews := 0, ratingDistribution := [],
      recentReviews := [] }
  else
    let totalRating := reviews.foldl (fun sum r => sum + r.rating) (0 : ℚ)
    let averageRating := totalRating / reviews.length
    { averageRating := jsRound10 averageRating
      totalReviews := reviews.length
      ratingDistribution := reviews.foldl (fun dist r => bump dist r.rating) []
      recentReviews := reviews.take 5 }

/-- getUserRatingStats models `ReviewService.getUserRatingStats` over a store
whose query (`reviewee_id = userId`, ordered descending, unpaginated)
succeeds. -/
def getUserRatingStats (store : List Review) (userId : String) :
    ApiResponse RatingStats :=
  apiOk (getUserRatingStatsOf (listDocumentsAll store
    (fun r => r.reviewee_id == userId) (fun r => r.created_at)))

/-- PlatformStats is the result shape of `ReviewService.getPlatformStats`
(lines 359-414). -/
structure PlatformStats where
  totalReviews : Nat
  averageRating : ℚ
  ratingDistribution : List (ℚ × Nat)
  reviewsByType : List (String × Nat)
deriving DecidableEq

/-- getPlatformStatsOf is the aggregation of `getPlatformStats` over the
fetched reviews: zeros on the empty set, otherwise
`Math.round((sum / count) * 10) / 10` and the two distributions
(lines 379-414). -/
def getPlatformStatsOf (reviews : List Review) : PlatformStats :=
  if reviews.length == 0 then
    { totalReviews := 0, averageRating := 0, ratingDistribution := [],
      reviewsByType := [] }
  else
    let totalRating := reviews.foldl (fun sum r => sum + r.rating) (0 : ℚ)
    let averageRating := totalRating / reviews.length
    { totalReviews := reviews.length
      averageRating := jsRound10 averageRating
      ratingDistribution := reviews.foldl (fun dist r => bump dist r.rating) []
      reviewsByType := reviews.foldl (fun types r => bump types r.review_type) [] }

/-- getUserRatingStatsRun is `getUserRatingStats` with the outcome of its
store query given explicitly: an envelope failure when the query throws
(`error.message || fallback`), the aggregation otherwise. -/
def getUserRatingStatsRun (listRes : Except String (List Review)) :
    ApiResponse RatingStats :=
  match listRes with
  | .error e => apiErr (jsOr e "Failed to fetch user rating statistics")
  | .ok docs => apiOk (getUserRatingStatsOf docs)

/-- updateUserRatingRun models the private `updateUserRating` (lines 336-356)
with its two store calls given explicitly, returning the console log lines it
emits: when the stats fetch succeeds it writes the profile document, and a
failure of that write is caught and logged, never thrown. -/
def updateUserRatingRun (listRes : Except String (List Review))
    (updRes : Except String Unit) : List String :=
  if (getUserRatingStatsRun listRes).success then
    match updRes with
    | .error e => ["Failed to update user rating: " ++ e]
    | .ok _ => []
  else []

/-- createRun models `ReviewService.create` (lines 15-45) with its store calls
given explicitly, returning the envelope and the log lines: a failure of
`createDocument` is fatal; after a successful create, `updateUserRating` runs
and its failures are only logged. -/
def createRun (createRes : Except String Review)
    (listRes : Except String (List Review)) (updRes : Except String Unit) :
    ApiResponse Review × List String :=
  match createRes with
  | .error e => (apiErr (jsOr e "Failed to create review"), [])
  | .ok review => (apiOk review, updateUserRatingRun listRes updRes)

/-- deleteRun models `ReviewService.delete` (lines 207-234): the `getById`
envelope failure is returned as is; a `deleteDocument` failure is fatal;
after a successful delete, `updateUserRating` runs and its failures are only
logged. -/
def deleteRun (getRes : Except String Review) (delRes : Except String Unit)
    (listRes : Except String (List Review)) (updRes : Except String Unit) :
    ApiResponse Unit × List String :=
  match getRes with
  | .error e => (apiErr (jsOr e "Failed to fetch review"), [])
  | .ok _ =>
      match delRes with
      | .error e => (apiErr (jsOr e "Failed to delete review"), [])
      | .ok _ => (apiOk (), updateUserRatingRun listRes updRes)

/-- ratingChangeCond is the guard of the side effect in `ReviewService.update`
(line 190): `updateData.rating && updateData.rating !== currentReview.rating`,
i.e. the new rating is present, truthy (nonzero) and differs from the stored
one. -/
def ratingChangeCond (newRating : Option ℚ) (old : ℚ) : Bool :=
  match newRating with
  | none => false
  | some q => q != 0 && q != old

/-- updateRun models `ReviewService.update` (lines 168-204) with its store
calls given explicitly: the `getById` envelope failure is returned as is; an
`updateDocument` failure is fatal; `updateUserRating` runs only under
`ratingChangeCond`, and its failures are only logged. -/
def updateRun (getRes : Except String Review)
    (updDocRes : Except String Review) (newRating : Option ℚ)
    (listRes : Except String (List Review)) (updRes : Except String Unit) :
    ApiResponse Review × List String :=
  match getRes with
  | .error e => (apiErr (jsOr e "Failed to fetch review"), [])
  | .ok current =>
      match updDocRes with
      | .error e => (apiErr (jsOr e "Failed to update review"), [])
      | .ok review =>
          if ratingChangeCond newRating current.rating then
            (apiOk review, updateUserRatingRun listRes updRes)
          else
            (apiOk review, [])

/-- ReviewDB is the store state the review mutations touch: the reviews
collection and the profiles collection. -/
structure ReviewDB where
  reviews : List Review
  profiles : List Profile
deriving DecidableEq

/-- updateUserRatingState is the state effect of a successful
`updateUserRating` run: recompute the reviewee rating stats from the current
reviews collection and write the two derived fields onto the reviewee profile
document. -/
def updateUserRatingState (db : ReviewDB) (userId : String) : ReviewDB :=
  let stats := getUserRatingStatsOf (listDocumentsAll db.reviews
    (fun r => r.reviewee_id == userId) (fun r => r.created_at))
  { db with profiles := db.profiles.map (fun p =>
      if p.id == userId then
        { p with average_rating := stats.averageRating
                 total_reviews := stats.totalReviews }
      else p) }

/-- updateState is the state semantics of `ReviewService.update` when every
store call succeeds: fetch the current review (a missing id fails the call and
leaves the store unchanged), write the updated review document, then run the
rating side effect exactly under `ratingChangeCond`. -/
def updateState (db : ReviewDB) (reviewId : String) (newRating : Option ℚ) :
    ReviewDB × ApiResponse Review :=
  match db.reviews.find? (fun r => r.id == reviewId) with
  | none => (db, apiErr "Failed to fetch review")
  | some current =>
      let updated := { current with rating := newRating.getD current.rating }
      let db1 := { db with reviews := db.reviews.map (fun r =>
        if r.id == reviewId then updated else r) }
      let db2 :=
        if ratingChangeCond newRating current.rating then
          updateUserRatingState db1 current.reviewee_id
        else db1
      (db2, apiOk updated)

end ReviewService

/-- CreateDisputeRequest carries the fields `DisputeService.create` reads from
its argument; there is no status field a caller could supply. -/
structure CreateDisputeRequest where
  jobId : String
  complainantId : String
  respondentId : String
  disputeType : String
  description : String
  evidenceUrls : Option (List String)
  amountInDispute : ℚ
  priority : Option String
deriving DecidableEq

/-- DisputePayload is the document body `DisputeService.create` writes
(dispute.service.ts lines 21-32). -/
structure DisputePayload where
  job_id : String
  complainant_id : String
  respondent_id : String
  dispute_type : String
  description : String
  evidence_urls : List String
  amount_in_dispute : ℚ
  status : String
  priority : String
  created_at : Int
deriving DecidableEq

/-- DisputeService.createPayload builds the created dispute document:
status is the literal `open`, priority is `disputeData.priority || "medium"`,
evidence defaults to the empty list. -/
def DisputeService.createPayload (disputeData : CreateDisputeRequest)
    (now : Int) : DisputePayload :=
  { job_id := disputeData.jobId
    complainant_id := disputeData.complainantId
    respondent_id := disputeData.respondentId
    dispute_type := disputeData.disputeType
    description := disputeData.description
    evidence_urls := disputeData.evidenceUrls.getD []
    amount_in_dispute := disputeData.amountInDispute
    status := "open"
    priority := jsOrOpt disputeData.priority "medium"
    created_at := now }

/-- CreatePaymentRequest carries the fields `PaymentService.create` reads;
there is no status or escrow field a caller could supply. -/
structure CreatePaymentRequest where
  jobId : String
  payerId : String
  recipientId : String
  amount : ℚ
  currency : Option String
  paymentMethod : String
deriving DecidableEq

/-- PaymentPayload is the document body `PaymentService.create` writes
(payment.service.ts lines 21-31). -/
structure PaymentPayload where
  job_id : String
  payer_id : String
  recipient_id : String
  amount : ℚ
  currency : String
  payment_method : String
  status : String
  escrow_status : String
  created_at : Int
deriving DecidableEq

/-- PaymentService.createPayload builds the created payment document: status
is the literal `pending`, escrow_status the literal `held`, currency defaults
to BWP. -/
def PaymentService.createPayload (paymentData : CreatePaymentRequest)
    (now : Int) : PaymentPayload :=
  { job_id := paymentData.jobId
    payer_id := paymentData.payerId
    recipient_id := paymentData.recipientId
    amount := paymentData.amount
    currency := jsOrOpt paymentData.currency "BWP"
    payment_method := paymentData.paymentMethod
    status := "pending"
    escrow_status := "held"
    created_at := now }

/-- CreateApplicationRequest carries the fields `ApplicationService.create`
reads; there is no status field a caller could supply. -/
structure CreateApplicationRequest where
  jobId : String
  applicantId : String
  coverLetter : String
  proposedPrice : ℚ
  estimatedCompletion : String
deriving DecidableEq

/-- ApplicationPayload is the document body `ApplicationService.create` writes
(application.service.ts lines 21-29). -/
structure ApplicationPayload where
  job_id : String
  applicant_id : String
  cover_letter : String
  proposed_price : ℚ
  estimated_completion : String
  status : String
  applied_at : Int
deriving DecidableEq

/-- ApplicationService.createPayload builds the created application document:
status is the literal `pending`. -/
def ApplicationService.createPayload (applicationData : CreateApplicationRequest)
    (now : Int) : ApplicationPayload :=
  { job_id := applicationData.jobId
    applicant_id := applicationData.applicantId
    cover_letter := applicationData.coverLetter
    proposed_price := applicationData.proposedPrice
    estimated_completion := applicationData.estimatedCompletion
    status := "pending"
    applied_at := now }

/-- CreateJobRequest carries the declared fields of the job create request.
The optional status field models a property a caller could smuggle into the
object spread `{...jobData, ...}`; the fixed keys written after the spread
override it. -/
structure CreateJobRequest where
  title : String
  description : String
  categoryId : String
  location : String
  budget : ℚ
  currency : String
  dueDate : String
  status : Option String
deriving DecidableEq

/-- JobPayload is the document body `JobService.createJob` writes. -/
structure JobPayload where
  title : String
  description : String
  categoryId : String
  location : String
  budget : ℚ
  currency : String
  dueDate : String
  status : String
  postedAt : Int
  isFeatured : Bool
deriving DecidableEq

/-- JobService.createJob builds the created job document as
`{...jobData, status: "open", postedAt: now, isFeatured: false}`: the keys
written after the spread win, so any caller-supplied status is discarded. -/
def JobService.createJob (jobData : CreateJobRequest) (now : Int) :
    JobPayload :=
  { title := jobData.title
    description := jobData.description
    categoryId := jobData.categoryId
    location := jobData.location
    budget := jobData.budget
    currency := jobData.currency
    dueDate := jobData.dueDate
    status := "open"
    postedAt := now
    isFeatured := false }

/-! Generic lemmas about the merge building blocks. -/

/-- any_filter_eq shows filtering by a weaker predicate does not change `any`
for a stronger one. -/
theorem any_filter_eq (p q : α → Bool) (h : ∀ a, p a = true → q a = true) :
    ∀ l : List α, (l.filter q).any p = l.any p := by
  intro l
  induction l with
  | nil => rfl
  | cons a t ih =>
    cases hq : q a with
    | true => simp [List.filter_cons, hq, List.any_cons, ih]
    | false =>
      have hp : p a = false := by
        cases hpa : p a
        · rfl
        · rw [h a hpa] at hq; exact Bool.noConfusion hq
      simp [List.filter_cons, hq, List.any_cons, hp, ih]

/-- find_filter_eq shows filtering by a weaker predicate does not change
`find?` for a stronger one. -/
theorem find_filter_eq (p q : α → Bool) (h : ∀ a, p a = true → q a = true) :
    ∀ l : List α, (l.filter q).find? p = l.find? p := by
  intro l
  induction l with
  | nil => rfl
  | cons a t ih =>
    cases hq : q a with
    | true => simp [List.filter_cons, hq, List.find?_cons, ih]
    | false =>
      have hp : p a = false := by
        cases hpa : p a
        · rfl
        · rw [h a hpa] at hq; exact Bool.noConfusion hq
      simp [List.filter_cons, hq, List.find?_cons, hp, ih]

/-- uniqueByKeyAux_countP shows the keep-first dedup leaves exactly one
element per key value present in the input, and none for an absent key
value. -/
theorem uniqueByKeyAux_countP (key : α → String) (k : String) :
    ∀ (n : Nat) (l : List α), l.length ≤ n →
      (uniqueByKeyAux key n l).countP (fun y => key y == k) =
        if l.any (fun y => key y == k) then 1 else 0 := by
  intro n
  induction n with
  | zero =>
    intro l hl
    rw [List.length_eq_zero.mp (Nat.le_zero.mp hl)]
    simp [uniqueByKeyAux]
  | succ n ih =>
    intro l hl
    match l with
    | [] => simp [uniqueByKeyAux]
    | x :: xs =>
      simp only [uniqueByKeyAux]
      rw [List.countP_cons, List.any_cons]
      have hlen : (xs.filter (fun y => key y != key x)).length ≤ n :=
        le_trans (List.length_filter_le _ _)
          (Nat.le_of_succ_le_succ hl)
      rw [ih _ hlen]
      cases hx : (key x == k) with
      | true =>
        have hkx : key x = k := beq_iff_eq.mp hx
        have hnone : (xs.filter (fun y => key y != key x)).any
            (fun y => key y == k) = false := by
          rw [List.any_eq_false]
          intro y hy
          have hne := (List.mem_filter.mp hy).2
          simp only [bne_iff_ne, ne_eq] at hne
          simp only [beq_iff_eq]
          intro hyk
          exact hne (hyk.trans hkx.symm)
        simp [hnone, hx]
      | false =>
        have hany : (xs.filter (fun y => key y != key x)).any
            (fun y => key y == k) = xs.any (fun y => key y == k) := by
          refine any_filter_eq _ _ (fun a ha => ?_) xs
          have hak : key a = k := beq_iff_eq.mp ha
          simp only [bne_iff_ne, ne_eq, hak]
          intro hkk
          rw [hkk] at hx
          simp at hx
        simp [hany, hx]

/-- uniqueByKeyAux_find shows the element the keep-first dedup retains for a
key value is the first occurrence of that key value in the input. -/
theorem uniqueByKeyAux_find (key : α → String) (k : String) :
    ∀ (n : Nat) (l : List α), l.length ≤ n →
      (uniqueByKeyAux key n l).find? (fun y => key y == k) =
        l.find? (fun y => key y == k) := by
  intro n
  induction n with
  | zero =>
    intro l hl
    rw [List.length_eq_zero.mp (Nat.le_zero.mp hl)]
    simp [uniqueByKeyAux]
  | succ n ih =>
    intro l hl
    match l with
    | [] => simp [uniqueByKeyAux]
    | x :: xs =>
      simp only [uniqueByKeyAux]
      rw [List.find?_cons, List.find?_cons]
      cases hx : (key x == k) with
      | true => rfl
      | false =>
        have hlen : (xs.filter (fun y => key y != key x)).length ≤ n :=
          le_trans (List.length_filter_le _ _) (Nat.le_of_succ_le_succ hl)
        rw [ih _ hlen]
        refine find_filter_eq _ _ (fun a ha => ?_) xs
        have hak : key a = k := beq_iff_eq.mp ha
        simp only [bne_iff_ne, ne_eq, hak]
        intro hkk
        rw [hkk] at hx
        simp at hx

/-- uniqueByKeyAux_subset shows dedup only discards elements. -/
theorem uniqueByKeyAux_subset (key : α → String) :
    ∀ (n : Nat) (l : List α), l.length ≤ n →
      ∀ x, x ∈ uniqueByKeyAux key n l → x ∈ l := by
  intro n
  induction n with
  | zero =>
    intro l hl
    rw [List.length_eq_zero.mp (Nat.le_zero.mp hl)]
    intro x hx
    exact absurd hx (by simp [uniqueByKeyAux])
  | succ n ih =>
    intro l hl x hx
    match l with
    | [] => exact absurd hx (by simp [uniqueByKeyAux])
    | a :: xs =>
      simp only [uniqueByKeyAux] at hx
      rw [List.mem_cons] at hx
      rcases hx with h | h
      · exact h ▸ List.mem_cons_self _ _
      · have hlen : (xs.filter (fun y => key y != key a)).length ≤ n :=
          le_trans (List.length_filter_le _ _) (Nat.le_of_succ_le_succ hl)
        exact List.mem_cons_of_mem _
          (List.mem_of_mem_filter (ih _ hlen x h))

/-- sortDescBy_perm shows the stable descending sort is a permutation. -/
theorem sortDescBy_perm (key : α → Int) (l : List α) :
    List.Perm (sortDescBy key l) l :=
  List.perm_insertionSort (keyGE key) l

/-- sortDescBy_pairwise shows the stable descending sort output is pairwise
non-increasing in the key. -/
theorem sortDescBy_pairwise (key : α → Int) (l : List α) :
    (sortDescBy key l).Pairwise (fun a b => key b ≤ key a) :=
  List.sorted_insertionSort (keyGE key) l

/-- filter_orderedInsert computes the key-class filter of an ordered insert:
the inserted element lands in front of its own key class and every other key
class is untouched. -/
theorem filter_orderedInsert (key : α → Int) (k : Int) (a : α) (l : List α) :
    (List.orderedInsert (keyGE key) a l).filter (fun x => key x == k) =
      if key a == k then a :: l.filter (fun x => key x == k)
      else l.filter (fun x => key x == k) := by
  induction l with
  | nil =>
    cases hpa : (key a == k) with
    | true => simp [List.orderedInsert, List.filter, hpa]
    | false => simp [List.orderedInsert, List.filter, hpa]
  | cons b t ih =>
    rw [List.orderedInsert]
    by_cases h : keyGE key a b
    · rw [if_pos h]
      cases hpa : (key a == k) with
      | true => simp [List.filter_cons, hpa]
      | false => simp [List.filter_cons, hpa]
    · rw [if_neg h]
      have hab : key a < key b := lt_of_not_le h
      cases hpa : (key a == k) with
      | true =>
        have hpb : (key b == k) = false := by
          have hka : key a = k := beq_iff_eq.mp hpa
          rw [beq_eq_false_iff_ne, ne_eq]
          intro hkb
          rw [hkb, ← hka] at hab
          exact lt_irrefl _ hab
        simp [List.filter_cons, hpb, ih, hpa]
      | false =>
        simp [List.filter_cons, ih, hpa]

/-- sortDescBy_stable shows the descending sort is stable: within any single
key value, elements keep their input order. -/
theorem sortDescBy_stable (key : α → Int) (k : Int) (l : List α) :
    (sortDescBy key l).filter (fun x => key x == k) =
      l.filter (fun x => key x == k) := by
  induction l with
  | nil => rfl
  | cons a t ih =>
    have ih' : (List.insertionSort (keyGE key) t).filter
        (fun x => key x == k) = t.filter (fun x => key x == k) := ih
    rw [sortDescBy, List.insertionSort, filter_orderedInsert]
    cases hpa : (key a == k) with
    | true => simp [List.filter_cons, hpa, ih']
    | false => simp [List.filter_cons, hpa, ih']

/-- foldl_add_map evaluates the running-sum reduce as a list sum. -/
theorem foldl_add_map (f : α → ℚ) :
    ∀ (l : List α) (init : ℚ),
      l.foldl (fun s r => s + f r) init = init + (l.map f).sum := by
  intro l
  induction l with
  | nil => simp
  | cons a t ih =>
    intro init
    rw [List.foldl_cons, ih, List.map_cons, List.sum_cons]
    ring

/-- uniqueByKey_countP instantiates the count property at the actual
recursion bound. -/
theorem uniqueByKey_countP (key : α → String) (k : String) (l : List α) :
    (uniqueByKey key l).countP (fun y => key y == k) =
      if l.any (fun y => key y == k) then 1 else 0 :=
  uniqueByKeyAux_countP key k l.length l le_rfl

/-- uniqueByKey_find instantiates the first-occurrence property at the actual
recursion bound. -/
theorem uniqueByKey_find (key : α → String) (k : String) (l : List α) :
    (uniqueByKey key l).find? (fun y => key y == k) =
      l.find? (fun y => key y == k) :=
  uniqueByKeyAux_find key k l.length l le_rfl

/-- uniqueByKey_subset instantiates the subset property at the actual
recursion bound. -/
theorem uniqueByKey_subset (key : α → String) (l : List α) :
    ∀ x, x ∈ uniqueByKey key l → x ∈ l :=
  uniqueByKeyAux_subset key l.length l le_rfl

/-! Example documents used by closed counterexamples and witnesses. -/

/-- exSelfDispute is a dispute in which the same user is complainant and
respondent, so it matches both source queries of the fan-out. -/
def exSelfDispute : Dispute :=
  { id := "d1", created_at := 100, complainant_id := "U", respondent_id := "U",
    status := "open", priority := "medium", dispute_type := "payment",
    resolved_at := none, assigned_admin_id := none }

/-- exResolvedDispute is a resolved dispute carrying a resolution timestamp
two hours after creation. -/
def exResolvedDispute : Dispute :=
  { id := "d2", created_at := 0, complainant_id := "U", respondent_id := "V",
    status := "resolved_in_favor_of_seeker", priority := "medium",
    dispute_type := "payment", resolved_at := some 7200000,
    assigned_admin_id := some "A" }

/-- exUserFilter selects disputes involving user U with no other filters. -/
def exUserFilter : DisputeService.DisputeFilters :=
  { status := none, priority := none, disputeType := none, userId := some "U" }

/-! Claim theorems. -/

/-- C1 (amended): in `DisputeService.getAll` with a userId filter, the merged
set contains each identity of the concatenated source results exactly once,
the surviving copy is the first occurrence in source-query order, and the
returned page holds at most one document per identity.  (The claim as stated
also asserts this for `getUserDisputes` with role `all` and `getUserPayments`
with type `all`, which do not deduplicate; see the counterexample.) -/
theorem getAll_merge_dedup_each_identity_once :
    ∀ (cdocs rdocs : List Dispute) (limit offset : Nat) (k : String),
      ((DisputeService.mergeUnique cdocs rdocs).countP (fun d => d.id == k) =
        if (cdocs ++ rdocs).any (fun d => d.id == k) then 1 else 0) ∧
      ((DisputeService.mergeUnique cdocs rdocs).find? (fun d => d.id == k) =
        (cdocs ++ rdocs).find? (fun d => d.id == k)) ∧
      (DisputeService.mergePageDocs cdocs rdocs limit offset).countP
        (fun d => d.id == k) ≤ 1 := by
  intro cdocs rdocs limit offset k
  refine ⟨uniqueByKey_countP _ _ _, uniqueByKey_find _ _ _, ?_⟩
  have hsub : List.Sublist
      (DisputeService.mergePageDocs cdocs rdocs limit offset)
      (sortDescBy (fun d => d.created_at)
        (DisputeService.mergeUnique cdocs rdocs)) :=
    (List.take_sublist _ _).trans (List.drop_sublist _ _)
  have h1 := hsub.countP_le (p := fun d => d.id == k)
  have h2 := (sortDescBy_perm (fun d => d.created_at)
    (DisputeService.mergeUnique cdocs rdocs)).countP_eq
    (fun d => d.id == k)
  rw [h2] at h1
  refine le_trans h1 ?_
  unfold DisputeService.mergeUnique
  rw [uniqueByKey_countP]
  split <;> simp

/-- C1 counterexample: `getUserDisputes` with role `all` does not
deduplicate — a dispute in which user U is both complainant and respondent is
returned twice in one page. -/
theorem getUserDisputesAll_duplicate_identity :
    (DisputeService.getUserDisputesAll [exSelfDispute] "U" 20 0).data.map
      (fun p => p.documents.countP (fun d => d.id == "d1")) = some 2 := by
  decide

/-- C2 (amended): the two no-dedup merges (`getUserDisputes` role `all` and
`getUserPayments` type `all`) report `total` as the sum of the two source
query totals, while `getAll` with a userId filter instead reports the length
of the deduplicated merged window. -/
theorem fanout_totals :
    (∀ (store : List Dispute) (uid : String) (limit offset : Nat),
      (DisputeService.getUserDisputesAll store uid limit offset).data.map
        (fun p => p.total) =
        some ((store.filter (fun d => d.complainant_id == uid)).length +
          (store.filter (fun d => d.respondent_id == uid)).length)) ∧
    (∀ (store : List Payment) (uid : String) (limit offset : Nat),
      (PaymentService.getUserPaymentsAll store uid limit offset).data.map
        (fun p => p.total) =
        some ((store.filter (fun p => p.payer_id == uid)).length +
          (store.filter (fun p => p.recipient_id == uid)).length)) ∧
    (∀ (store : List Dispute) (f : DisputeService.DisputeFilters)
      (uid : String) (limit offset : Nat), f.userId = some uid →
      (DisputeService.getAll store f limit offset).data.map
        (fun p => p.total) =
        some (DisputeService.mergeUnique
          (DisputeService.complainantQuery store f uid limit offset).documents
          (DisputeService.respondentQuery store f uid limit
            offset).documents).length) := by
  refine ⟨?_, ?_, ?_⟩
  · intro store uid limit offset
    simp [DisputeService.getUserDisputesAll, listDocuments, apiOk]
  · intro store uid limit offset
    simp [PaymentService.getUserPaymentsAll, listDocuments, apiOk]
  · intro store f uid limit offset huid
    simp [DisputeService.getAll, huid, DisputeService.getAllFanout,
      promiseAll2, apiOk]

/-- C2 witness: the `getAll` branch of the totals theorem at a one-dispute
store. -/
theorem fanout_totals_witness :
    (DisputeService.getAll [exSelfDispute] exUserFilter 20 0).data.map
      (fun p => p.total) =
      some (DisputeService.mergeUnique
        (DisputeService.complainantQuery [exSelfDispute] exUserFilter "U" 20
          0).documents
        (DisputeService.respondentQuery [exSelfDispute] exUserFilter "U" 20
          0).documents).length :=
  fanout_totals.2.2 [exSelfDispute] exUserFilter "U" 20 0 rfl

/-- C2 counterexample: the claim says `total` is the sum of the source totals
for every fan-out merge, but `getAll` with a userId filter reports the
deduplicated count — here 1, while the source totals sum to 2. -/
theorem getAll_total_not_sum_of_sources :
    (DisputeService.getAll [exSelfDispute] exUserFilter 20 0).data.map
      (fun p => p.total) = some 1 ∧
    (DisputeService.complainantQuery [exSelfDispute] exUserFilter "U" 20
        0).total +
      (DisputeService.respondentQuery [exSelfDispute] exUserFilter "U" 20
        0).total = 2 := by
  decide

/-- C5 (code bug): `DisputeService.getStats` computes its resolution-time mean
by testing `status === "resolved"`, a value outside the DisputeStatus enum, so
a dispute that the very same reduce counts as resolved (status
`resolved_in_favor_of_seeker`, `resolved_at` two hours after creation)
contributes nothing and the reported mean is 0; `getAdminWorkload`, testing
the real resolved statuses, reports the 2-hour mean the claim describes on the
same input. -/
theorem getStats_resolution_mean_always_zero :
    (DisputeService.getStatsOf [exResolvedDispute]).2 = 0 ∧
    (DisputeService.getStatsOf [exResolvedDispute]).1.resolvedDisputes = 1 ∧
    (DisputeService.getStatsOf [exResolvedDispute]).1.resolvedCount = 0 ∧
    (DisputeService.getAdminWorkloadOf [exResolvedDispute]).2 = 2 := by
  refine ⟨?_, ?_, ?_, ?_⟩
  · simp [DisputeService.getStatsOf, DisputeService.disputeStatsStep,
      bump, jsRound100, jsRound, exResolvedDispute]
  · decide
  · decide
  · simp [DisputeService.getAdminWorkloadOf, DisputeService.workloadStep,
      DisputeService.resolutionHours, jsRound100, jsRound, exResolvedDispute]
    norm_num [show Int.fdiv 401 2 = 200 from rfl]

/-- chainWindow shows any window cut from a descending-sorted list has its
adjacent pairs in descending key order. -/
theorem chainWindow (key : α → Int) (l : List α) (limit offset : Nat) :
    List.Chain' (fun a b => key b ≤ key a)
      (((sortDescBy key l).drop offset).take limit) := by
  have hp := sortDescBy_pairwise key l
  have hsub : List.Sublist (((sortDescBy key l).drop offset).take limit)
      (sortDescBy key l) :=
    (List.take_sublist _ _).trans (List.drop_sublist _ _)
  exact (hp.sublist hsub).chain'

/-- C6 (amended): every page produced by the three fan-out merges is ordered
by `created_at` descending on adjacent pairs; ties are NOT reordered by
identity — the sort is stable, so documents with equal `created_at` keep
their concatenation order (complainant/sent results before
respondent/received ones). -/
theorem merged_pages_sorted_descending :
    (∀ (cdocs rdocs : List Dispute) (limit offset : Nat),
      List.Chain' (fun a b => b.created_at ≤ a.created_at)
        (DisputeService.mergePageDocs cdocs rdocs limit offset)) ∧
    (∀ (store : List Dispute) (uid : String) (limit offset : Nat),
      List.Chain' (fun a b => b.created_at ≤ a.created_at)
        (DisputeService.userDisputesAllPage store uid limit offset)) ∧
    (∀ (store : List Payment) (uid : String) (limit offset : Nat),
      List.Chain' (fun a b => b.created_at ≤ a.created_at)
        (PaymentService.userPaymentsAllPage store uid limit offset)) ∧
    (∀ (l : List Payment) (k : Int),
      (sortDescBy (fun p => p.created_at) l).filter
          (fun p => p.created_at == k) =
        l.filter (fun p => p.created_at == k)) := by
  refine ⟨?_, ?_, ?_, ?_⟩
  · intro cdocs rdocs limit offset
    exact chainWindow (fun d : Dispute => d.created_at) _ limit offset
  · intro store uid limit offset
    exact chainWindow (fun d : Dispute => d.created_at) _ limit offset
  · intro store uid limit offset
    exact chainWindow (fun p : Payment => p.created_at) _ limit offset
  · intro l k
    exact sortDescBy_stable _ k l

/-- exPaymentReceived is a payment received by user U; identity "a". -/
def exPaymentReceived : Payment :=
  { id := "a", created_at := 5, payer_id := "Y", recipient_id := "U",
    amount := 20, status := "pending" }

/-- exPaymentSent is a payment sent by user U with the same `created_at` as
`exPaymentReceived`; identity "b". -/
def exPaymentSent : Payment :=
  { id := "b", created_at := 5, payer_id := "U", recipient_id := "X",
    amount := 10, status := "pending" }

/-- C6 counterexample: two payments with equal `created_at` come back in
concatenation order (sent before received, id "b" before id "a"), not in
identity-ascending order, so the tie-break the claim states does not hold. -/
theorem merged_page_tie_not_identity_ascending :
    (PaymentService.getUserPaymentsAll [exPaymentReceived, exPaymentSent]
        "U" 20 0).data.map (fun p => p.documents.map (fun d => d.id)) =
      some ["b", "a"] ∧
    exPaymentSent.created_at = exPaymentReceived.created_at ∧
    ("a" : String) < "b" := by
  exact ⟨by decide, by decide, String.lt_iff_toList_lt.mpr (by decide)⟩

/-- mem_listDocuments shows every document a modelled store query returns is a
stored document satisfying the query predicate. -/
theorem mem_listDocuments {store : List α} {pred : α → Bool} {key : α → Int}
    {limit offset : Nat} {d : α}
    (h : d ∈ (listDocuments store pred key limit offset).documents) :
    d ∈ store ∧ pred d = true := by
  have hsub : List.Sublist
      (((sortDescBy key (store.filter pred)).drop offset).take limit)
      (sortDescBy key (store.filter pred)) :=
    (List.take_sublist _ _).trans (List.drop_sublist _ _)
  have h1 : d ∈ sortDescBy key (store.filter pred) := hsub.subset h
  have h2 : d ∈ store.filter pred :=
    ((sortDescBy_perm key (store.filter pred)).mem_iff).mp h1
  exact ⟨(List.mem_filter.mp h2).1, (List.mem_filter.mp h2).2⟩

/-- C7 (amended): each source query of the fan-out is issued WITH the caller
limit and offset, and the `[offset, offset + limit)` window is applied a
second time to the merged deduplicated sorted set; every returned page
therefore holds at most `limit` documents, each a stored document matching
the filters and one of the two user predicates — but concatenating successive
pages does not reproduce the full deduplicated sorted set (see the
counterexample). -/
theorem fanout_page_within_sources :
    ∀ (store : List Dispute) (f : DisputeService.DisputeFilters)
      (uid : String) (limit offset : Nat),
      (DisputeService.getAllPage store f uid limit offset).length ≤ limit ∧
      (∀ d, d ∈ DisputeService.getAllPage store f uid limit offset →
        d ∈ store ∧ DisputeService.baseFilter f d = true ∧
          (d.complainant_id = uid ∨ d.respondent_id = uid)) := by
  intro store f uid limit offset
  constructor
  · exact List.length_take_le _ _
  · intro d hd
    have hsub : List.Sublist
        (DisputeService.getAllPage store f uid limit offset)
        (sortDescBy (fun x => x.created_at)
          (DisputeService.mergeUnique
            (DisputeService.complainantQuery store f uid limit
              offset).documents
            (DisputeService.respondentQuery store f uid limit
              offset).documents)) :=
      (List.take_sublist _ _).trans (List.drop_sublist _ _)
    have h1 := (sortDescBy_perm (fun x : Dispute => x.created_at)
      _).mem_iff.mp (hsub.subset hd)
    have h2 := uniqueByKey_subset (fun x : Dispute => x.id) _ d h1
    rcases List.mem_append.mp h2 with hc | hr
    · obtain ⟨hstore, hpred⟩ := mem_listDocuments hc
      rw [Bool.and_eq_true, beq_iff_eq] at hpred
      exact ⟨hstore, hpred.1, Or.inl hpred.2⟩
    · obtain ⟨hstore, hpred⟩ := mem_listDocuments hr
      rw [Bool.and_eq_true, beq_iff_eq] at hpred
      exact ⟨hstore, hpred.1, Or.inr hpred.2⟩

/-- C7 witness: the membership part of the window theorem at a one-dispute
store whose page is nonempty. -/
theorem fanout_page_within_sources_witness :
    exSelfDispute ∈ [exSelfDispute] ∧
    DisputeService.baseFilter exUserFilter exSelfDispute = true ∧
    (exSelfDispute.complainant_id = "U" ∨ exSelfDispute.respondent_id = "U") :=
  (fanout_page_within_sources [exSelfDispute] exUserFilter "U" 20 0).2
    exSelfDispute (by decide)

/-- exDisputeNew and exDisputeOld are two distinct complainant-U disputes,
created at times 2 and 1. -/
def exDisputeNew : Dispute :=
  { id := "e1", created_at := 2, complainant_id := "U", respondent_id := "V",
    status := "open", priority := "medium", dispute_type := "payment",
    resolved_at := none, assigned_admin_id := none }

/-- exDisputeOld is the older of the two pagination-counterexample
disputes. -/
def exDisputeOld : Dispute :=
  { id := "e2", created_at := 1, complainant_id := "U", respondent_id := "V",
    status := "open", priority := "medium", dispute_type := "payment",
    resolved_at := none, assigned_admin_id := none }

/-- C7 counterexample: with limit 1, the pages [0,1) and [1,2) of `getAll`
concatenate to just the newest dispute; the older one is in the full
deduplicated sorted merged set but in neither page, because the offset was
already applied inside each source query and is applied again after the
merge. -/
theorem fanout_pagination_skips_documents :
    DisputeService.getAllPage [exDisputeNew, exDisputeOld] exUserFilter "U" 1 0
        ++
      DisputeService.getAllPage [exDisputeNew, exDisputeOld] exUserFilter "U"
        1 1 = [exDisputeNew] ∧
    DisputeService.specMergedSet [exDisputeNew, exDisputeOld] exUserFilter "U"
      = [exDisputeNew, exDisputeOld] ∧
    exDisputeOld ∉ [exDisputeNew] := by
  decide

/-- C8 (amended): if either source query of the fan-out fails, the whole
merge fails with no partial results; the surfaced error is the failing
promise error message (or a generic fallback), which does not identify which
source failed (see the counterexample). -/
theorem fanout_source_failure_fails_whole_merge :
    ∀ (cRes rRes : Except String (ListResult Dispute)) (limit offset : Nat),
      ((∃ e, cRes = Except.error e) ∨ (∃ e, rRes = Except.error e)) →
        (DisputeService.getAllFanout cRes rRes limit offset).success = false ∧
        (DisputeService.getAllFanout cRes rRes limit offset).data = none := by
  intro cRes rRes limit offset h
  match cRes, rRes with
  | .error e, _ =>
      simp [DisputeService.getAllFanout, promiseAll2, apiErr]
  | .ok c, .error e =>
      simp [DisputeService.getAllFanout, promiseAll2, apiErr]
  | .ok c, .ok r =>
      rcases h with ⟨e, he⟩ | ⟨e, he⟩ <;> exact Except.noConfusion he

/-- C8 witness: the failure theorem at a concrete failing complainant
query. -/
theorem fanout_source_failure_witness :
    (DisputeService.getAllFanout (Except.error "boom")
        (Except.ok { documents := [], total := 0 }) 20 0).success = false ∧
    (DisputeService.getAllFanout (Except.error "boom")
        (Except.ok { documents := [], total := 0 }) 20 0).data = none :=
  fanout_source_failure_fails_whole_merge (Except.error "boom")
    (Except.ok { documents := [], total := 0 }) 20 0 (Or.inl ⟨"boom", rfl⟩)

/-- C8 counterexample: the merge result is identical whether the complainant
query or the respondent query failed, so the surfaced failure cannot name
which source query failed. -/
theorem fanout_failure_does_not_name_source :
    DisputeService.getAllFanout (Except.error "Network request failed")
        (Except.ok { documents := [], total := 0 }) 20 0 =
      DisputeService.getAllFanout
        (Except.ok { documents := ([] : List Dispute), total := 0 })
        (Except.error "Network request failed") 20 0 ∧
    (DisputeService.getAllFanout (Except.error "Network request failed")
        (Except.ok { documents := ([] : List Dispute), total := 0 }) 20
        0).success = false := by
  decide

/-- C3: when the primary review write succeeds and the derived profile-rating
write fails, `create`, `delete` and `update` (the latter when the rating
change triggers the side effect) all still return overall success; the
returned envelope is the same as in a run whose side effect succeeds, and the
failure shows up only as a logged line. -/
theorem review_side_effect_isolation :
    ∀ (review current upd : Review) (docs : List Review) (e : String)
      (nr : Option ℚ),
      ((ReviewService.createRun (Except.ok review) (Except.ok docs)
          (Except.error e)).1 = apiOk review) ∧
      ((ReviewService.createRun (Except.ok review) (Except.ok docs)
          (Except.error e)).1 =
        (ReviewService.createRun (Except.ok review) (Except.ok docs)
          (Except.ok ())).1) ∧
      ((ReviewService.createRun (Except.ok review) (Except.ok docs)
          (Except.error e)).2 = ["Failed to update user rating: " ++ e]) ∧
      ((ReviewService.deleteRun (Except.ok current) (Except.ok ())
          (Except.ok docs) (Except.error e)).1 = apiOk ()) ∧
      ((ReviewService.deleteRun (Except.ok current) (Except.ok ())
          (Except.ok docs) (Except.error e)).2 =
        ["Failed to update user rating: " ++ e]) ∧
      (ReviewService.ratingChangeCond nr current.rating = true →
        ((ReviewService.updateRun (Except.ok current) (Except.ok upd) nr
            (Except.ok docs) (Except.error e)).1 = apiOk upd ∧
         (ReviewService.updateRun (Except.ok current) (Except.ok upd) nr
            (Except.ok docs) (Except.error e)).2 =
          ["Failed to update user rating: " ++ e])) := by
  intro review current upd docs e nr
  refine ⟨?_, ?_, ?_, ?_, ?_, ?_⟩
  · simp [ReviewService.createRun]
  · simp [ReviewService.createRun]
  · simp [ReviewService.createRun, ReviewService.updateUserRatingRun,
      ReviewService.getUserRatingStatsRun, apiOk]
  · simp [ReviewService.deleteRun]
  · simp [ReviewService.deleteRun, ReviewService.updateUserRatingRun,
      ReviewService.getUserRatingStatsRun, apiOk]
  · intro hcond
    simp [ReviewService.updateRun, hcond,
      ReviewService.updateUserRatingRun,
      ReviewService.getUserRatingStatsRun, apiOk]

/-- exReview is a concrete review document. -/
def exReview : Review :=
  { id := "r1", created_at := 10, reviewer_id := "W", reviewee_id := "U",
    rating := 3, review_type := "seeker_to_provider" }

/-- C3 witness: the isolation theorem at a concrete review and an update that
changes the rating from 3 to 5. -/
theorem review_side_effect_isolation_witness :
    ReviewService.ratingChangeCond (some 5) exReview.rating = true ∧
    ((ReviewService.updateRun (Except.ok exReview) (Except.ok exReview)
        (some 5) (Except.ok [exReview]) (Except.error "boom")).1 =
      apiOk exReview ∧
     (ReviewService.updateRun (Except.ok exReview) (Except.ok exReview)
        (some 5) (Except.ok [exReview]) (Except.error "boom")).2 =
      ["Failed to update user rating: " ++ "boom"]) :=
  ⟨by decide,
    (review_side_effect_isolation exReview exReview exReview [exReview]
      "boom" (some 5)).2.2.2.2.2 (by decide)⟩

/-- C9: every create operation fixes the initial lifecycle state regardless
of the request: disputes start `open` with priority defaulting to `medium`,
payments start `pending` with escrow `held`, applications start `pending`,
and jobs start `open` and not featured even when a status value is smuggled
into the spread object. -/
theorem creates_fix_initial_status :
    ∀ (d : CreateDisputeRequest) (p : CreatePaymentRequest)
      (a : CreateApplicationRequest) (j : CreateJobRequest) (now : Int),
      (DisputeService.createPayload d now).status = "open" ∧
      (d.priority = none →
        (DisputeService.createPayload d now).priority = "medium") ∧
      (PaymentService.createPayload p now).status = "pending" ∧
      (PaymentService.createPayload p now).escrow_status = "held" ∧
      (ApplicationService.createPayload a now).status = "pending" ∧
      (JobService.createJob j now).status = "open" ∧
      (JobService.createJob j now).isFeatured = false := by
  intro d p a j now
  refine ⟨rfl, ?_, rfl, rfl, rfl, rfl, rfl⟩
  intro h
  simp [DisputeService.createPayload, jsOrOpt, h]

/-- C9 witness: the fixed-initial-status theorem at concrete requests with no
priority supplied and a smuggled job status. -/
theorem creates_fix_initial_status_witness :
    (DisputeService.createPayload
        { jobId := "j", complainantId := "U", respondentId := "V",
          disputeType := "payment", description := "x",
          evidenceUrls := none, amountInDispute := 50,
          priority := none } 0).status = "open" ∧
    (DisputeService.createPayload
        { jobId := "j", complainantId := "U", respondentId := "V",
          disputeType := "payment", description := "x",
          evidenceUrls := none, amountInDispute := 50,
          priority := none } 0).priority = "medium" ∧
    (JobService.createJob
        { title := "t", description := "x", categoryId := "c",
          location := "l", budget := 100, currency := "BWP",
          dueDate := "2025-01-01", status := some "completed" } 0).status =
      "open" := by
  have h := creates_fix_initial_status
    { jobId := "j", complainantId := "U", respondentId := "V",
      disputeType := "payment", description := "x", evidenceUrls := none,
      amountInDispute := 50, priority := none }
    { jobId := "j", payerId := "U", recipientId := "V", amount := 10,
      currency := none, paymentMethod := "EFT" }
    { jobId := "j", applicantId := "U", coverLetter := "c",
      proposedPrice := 10, estimatedCompletion := "soon" }
    { title := "t", description := "x", categoryId := "c", location := "l",
      budget := 100, currency := "BWP", dueDate := "2025-01-01",
      status := some "completed" } 0
  exact ⟨h.1, h.2.1 rfl, h.2.2.2.2.2.1⟩

/-- statsStep_counts shows one payment reduce step increments the transaction
count and adds the amount, whatever status branch is taken. -/
theorem statsStep_counts (acc : PaymentService.PaymentStats) (p : Payment) :
    (PaymentService.statsStep acc p).totalTransactions =
      acc.totalTransactions + 1 ∧
    (PaymentService.statsStep acc p).totalAmount =
      acc.totalAmount + p.amount := by
  unfold PaymentService.statsStep
  split <;> try exact ⟨rfl, rfl⟩
  split <;> try exact ⟨rfl, rfl⟩
  split <;> exact ⟨rfl, rfl⟩

/-- paymentFold evaluates the payment reduce: the final transaction count and
amount total are the list length and amount sum on top of the accumulator. -/
theorem paymentFold (l : List Payment) :
    ∀ acc : PaymentService.PaymentStats,
      ((l.foldl PaymentService.statsStep acc).totalTransactions =
        acc.totalTransactions + l.length) ∧
      ((l.foldl PaymentService.statsStep acc).totalAmount =
        acc.totalAmount + (l.map (fun p => p.amount)).sum) := by
  induction l with
  | nil => intro acc; simp
  | cons p t ih =>
    intro acc
    rw [List.foldl_cons]
    obtain ⟨h1, h2⟩ := ih (PaymentService.statsStep acc p)
    obtain ⟨s1, s2⟩ := statsStep_counts acc p
    constructor
    · rw [h1, s1, List.length_cons]
      omega
    · rw [h2, s2, List.map_cons, List.sum_cons]
      ring

/-- paymentStats_avg gives the closed form of `averageTransactionValue`:
the zero-guarded amount mean, with no rounding. -/
theorem paymentStats_avg (l : List Payment) :
    (PaymentService.getStatsOf l).averageTransactionValue =
      if l.length = 0 then 0
      else (l.map (fun p => p.amount)).sum / l.length := by
  unfold PaymentService.getStatsOf
  obtain ⟨h1, h2⟩ := paymentFold l
    { totalTransactions := 0, totalAmount := 0, pendingAmount := 0,
      completedAmount := 0, refundedAmount := 0,
      averageTransactionValue := 0 }
  simp only [h1, h2, Nat.zero_add, zero_add]
  rcases Nat.eq_zero_or_pos l.length with h | h
  · simp [h]
  · rw [if_pos h, if_neg (Nat.pos_iff_ne_zero.mp h)]

/-- ratingStats_values gives the closed form of the user rating aggregation:
the zero-guarded rating mean rounded to 1 decimal after the division, and the
review count. -/
theorem ratingStats_values (l : List Review) :
    (ReviewService.getUserRatingStatsOf l).averageRating =
      (if l.length = 0 then 0
       else jsRound10 ((l.map (fun r => r.rating)).sum / l.length)) ∧
    (ReviewService.getUserRatingStatsOf l).totalReviews = l.length := by
  unfold ReviewService.getUserRatingStatsOf
  cases l with
  | nil => simp
  | cons r t =>
    rw [foldl_add_map]
    simp

/-- platformStats_values gives the same closed form for the platform-wide
aggregation. -/
theorem platformStats_values (l : List Review) :
    (ReviewService.getPlatformStatsOf l).averageRating =
      (if l.length = 0 then 0
       else jsRound10 ((l.map (fun r => r.rating)).sum / l.length)) ∧
    (ReviewService.getPlatformStatsOf l).totalReviews = l.length := by
  unfold ReviewService.getPlatformStatsOf
  cases l with
  | nil => simp
  | cons r t =>
    rw [foldl_add_map]
    simp

/-- jsRound10_eq_half_away shows JS rounding to 1 decimal is exactly
round-half-away-from-zero on nonnegative input. -/
theorem jsRound10_eq_half_away (q : ℚ) (h : 0 ≤ q) :
    jsRound10 q = roundHalfAway10 q := by
  rw [jsRound10, roundHalfAway10, roundHalfAway,
    if_pos (mul_nonneg h (by norm_num : (0 : ℚ) ≤ 10))]

/-- jsRound_eq_floor identifies the flooring-division form of `Math.round`
with the integer floor of `q + 1/2`. -/
theorem jsRound_eq_floor (q : ℚ) : jsRound q = ⌊q + 1/2⌋ := by
  rw [jsRound, Rat.floor_def]
  exact Int.fdiv_eq_ediv _ (Int.natCast_nonneg _)

/-- jsRound_eq evaluates `Math.round` through the floor characterization. -/
theorem jsRound_eq (q : ℚ) (n : ℤ) (h1 : (n : ℚ) ≤ q + 1/2)
    (h2 : q + 1/2 < (n : ℚ) + 1) : jsRound q = n := by
  rw [jsRound_eq_floor]
  exact Int.floor_eq_iff.mpr ⟨h1, h2⟩

/-- C4 (amended): both rating averages are computed as sum/count with a zero
guard and rounded to 1 decimal place after the division (half-away-from-zero,
equal to `Math.round` on these nonnegative inputs, never applied to the
intermediate sums); `averageTransactionValue` is the zero-guarded mean but is
NOT rounded to 2 decimal places (see the counterexample). -/
theorem domain_averages_divide_then_round :
    (∀ l : List Review, (∀ r ∈ l, 0 ≤ r.rating) →
      (ReviewService.getUserRatingStatsOf l).averageRating =
        (if l.length = 0 then 0
         else roundHalfAway10 ((l.map (fun r => r.rating)).sum / l.length))) ∧
    (∀ l : List Review, (∀ r ∈ l, 0 ≤ r.rating) →
      (ReviewService.getPlatformStatsOf l).averageRating =
        (if l.length = 0 then 0
         else roundHalfAway10 ((l.map (fun r => r.rating)).sum / l.length))) ∧
    (∀ l : List Payment,
      (PaymentService.getStatsOf l).averageTransactionValue =
        (if l.length = 0 then 0
         else (l.map (fun p => p.amount)).sum / l.length)) := by
  have havg : ∀ l : List Review, (∀ r ∈ l, 0 ≤ r.rating) →
      (if l.length = 0 then 0
        else jsRound10 ((l.map (fun r => r.rating)).sum / l.length)) =
      (if l.length = 0 then (0 : ℚ)
        else roundHalfAway10 ((l.map (fun r => r.rating)).sum / l.length)) := by
    intro l h
    rcases Nat.eq_zero_or_pos l.length with hz | hpos
    · simp [hz]
    · rw [if_neg (Nat.pos_iff_ne_zero.mp hpos),
        if_neg (Nat.pos_iff_ne_zero.mp hpos)]
      refine jsRound10_eq_half_away _ (div_nonneg ?_ (Nat.cast_nonneg _))
      refine List.sum_nonneg ?_
      intro x hx
      obtain ⟨r, hr, hrx⟩ := List.mem_map.mp hx
      exact hrx ▸ h r hr
  refine ⟨?_, ?_, ?_⟩
  · intro l h
    rw [(ratingStats_values l).1, havg l h]
  · intro l h
    rw [(platformStats_values l).1, havg l h]
  · intro l
    exact paymentStats_avg l

/-- exThreeReviews holds ratings 3, 4 and 5 for user U. -/
def exThreeReviews : List Review :=
  [{ id := "r1", created_at := 3, reviewer_id := "W", reviewee_id := "U",
     rating := 3, review_type := "seeker_to_provider" },
   { id := "r2", created_at := 2, reviewer_id := "X", reviewee_id := "U",
     rating := 4, review_type := "seeker_to_provider" },
   { id := "r3", created_at := 1, reviewer_id := "Y", reviewee_id := "U",
     rating := 5, review_type := "seeker_to_provider" }]

/-- C4 witness: the rating-average theorem at ratings 3, 4, 5. -/
theorem domain_averages_witness :
    (∀ r ∈ exThreeReviews, 0 ≤ r.rating) ∧
    (ReviewService.getUserRatingStatsOf exThreeReviews).averageRating =
      (if exThreeReviews.length = 0 then 0
       else roundHalfAway10
         ((exThreeReviews.map (fun r => r.rating)).sum /
           exThreeReviews.length)) :=
  ⟨by decide, domain_averages_divide_then_round.1 exThreeReviews (by decide)⟩

/-- exThirdPayments holds amounts 1, 0 and 0, so the mean is 1/3. -/
def exThirdPayments : List Payment :=
  [{ id := "p1", created_at := 3, payer_id := "a", recipient_id := "b",
     amount := 1, status := "pending" },
   { id := "p2", created_at := 2, payer_id := "a", recipient_id := "b",
     amount := 0, status := "pending" },
   { id := "p3", created_at := 1, payer_id := "a", recipient_id := "b",
     amount := 0, status := "pending" }]

/-- C4 counterexample: the claim says the currency average is rounded to 2
decimal places after the division, but `getStats` returns the raw mean 1/3,
which differs from its 2-decimal rounding 0.33. -/
theorem average_transaction_value_not_rounded :
    (PaymentService.getStatsOf exThirdPayments).averageTransactionValue =
      1/3 ∧
    roundHalfAway100 (1/3) = 33/100 ∧
    ((1 : ℚ)/3) ≠ 33/100 := by
  refine ⟨?_, ?_, by norm_num⟩
  · rw [paymentStats_avg]
    simp [exThirdPayments]
  · have h33 : jsRound ((1 : ℚ)/3 * 100) = 33 :=
      jsRound_eq _ 33 (by norm_num) (by norm_num)
    rw [roundHalfAway100, roundHalfAway,
      if_pos (by norm_num : (0 : ℚ) ≤ 1/3 * 100), h33]
    norm_num

/-- ratingStats_sorted pushes the rating aggregation through the modelled
store query: the statistics of the fetched (sorted) reviews are those of the
filtered collection. -/
theorem ratingStats_sorted (pred : Review → Bool) (store : List Review) :
    (ReviewService.getUserRatingStatsOf
        (listDocumentsAll store pred (fun r => r.created_at))).averageRating =
      (if (store.filter pred).length = 0 then 0
       else jsRound10 (((store.filter pred).map (fun r => r.rating)).sum /
         (store.filter pred).length)) ∧
    (ReviewService.getUserRatingStatsOf
        (listDocumentsAll store pred (fun r => r.created_at))).totalReviews =
      (store.filter pred).length := by
  have hperm : List.Perm
      (listDocumentsAll store pred (fun r => r.created_at))
      (store.filter pred) := sortDescBy_perm _ _
  obtain ⟨h1, h2⟩ := ratingStats_values
    (listDocumentsAll store pred (fun r => r.created_at))
  rw [h1, h2, hperm.length_eq, (hperm.map (fun r => r.rating)).sum_eq]
  exact ⟨rfl, rfl⟩

/-- C10: `ReviewService.update` recomputes the reviewee profile rating
exactly when the new rating is present, truthy (nonzero) and different from
the stored one; when the review id is unknown, the rating is omitted, zero,
or unchanged, the profiles collection is untouched, and when the side effect
does run, the reviewee profile receives the rounded mean and count of the
post-update reviews for that reviewee. -/
theorem review_update_recompute_guard :
    ∀ (db : ReviewService.ReviewDB) (reviewId : String)
      (newRating : Option ℚ),
      (db.reviews.find? (fun r => r.id == reviewId) = none →
        (ReviewService.updateState db reviewId newRating).1.profiles =
          db.profiles) ∧
      (∀ current,
        db.reviews.find? (fun r => r.id == reviewId) = some current →
        (ReviewService.ratingChangeCond newRating current.rating = false →
          (ReviewService.updateState db reviewId newRating).1.profiles =
            db.profiles) ∧
        (ReviewService.ratingChangeCond newRating current.rating = true →
          ∀ p ∈ (ReviewService.updateState db reviewId
              newRating).1.profiles,
            p.id = current.reviewee_id →
              p.average_rating =
                (if ((ReviewService.updateState db reviewId
                      newRating).1.reviews.filter
                      (fun r => r.reviewee_id ==
                        current.reviewee_id)).length = 0
                 then 0
                 else jsRound10
                  ((((ReviewService.updateState db reviewId
                      newRating).1.reviews.filter
                      (fun r => r.reviewee_id ==
                        current.reviewee_id)).map
                      (fun r => r.rating)).sum /
                    ((ReviewService.updateState db reviewId
                      newRating).1.reviews.filter
                      (fun r => r.reviewee_id ==
                        current.reviewee_id)).length)) ∧
              p.total_reviews =
                ((ReviewService.updateState db reviewId
                  newRating).1.reviews.filter
                  (fun r => r.reviewee_id ==
                    current.reviewee_id)).length)) := by
  intro db reviewId newRating
  constructor
  · intro hnone
    simp [ReviewService.updateState, hnone]
  · intro current hfind
    constructor
    · intro hcond
      simp [ReviewService.updateState, hfind, hcond]
    · intro hcond
      have hres : ReviewService.updateState db reviewId newRating =
          (ReviewService.updateUserRatingState
            { db with reviews := db.reviews.map (fun r =>
                if r.id == reviewId then
                  { current with rating := newRating.getD current.rating }
                else r) }
            current.reviewee_id,
           apiOk { current with
             rating := newRating.getD current.rating }) := by
        simp [ReviewService.updateState, hfind, hcond]
      intro p hp hid
      rw [hres] at hp ⊢
      simp only [ReviewService.updateUserRatingState] at hp ⊢
      obtain ⟨p0, hp0, hpe⟩ := List.mem_map.mp hp
      by_cases h0 : (p0.id == current.reviewee_id) = true
      · rw [if_pos h0] at hpe
        obtain ⟨hA, hT⟩ := ratingStats_sorted
          (fun r => r.reviewee_id == current.reviewee_id)
          (db.reviews.map (fun r =>
            if r.id == reviewId then
              { current with rating := newRating.getD current.rating }
            else r))
        rw [← hpe]
        exact ⟨hA, hT⟩
      · rw [if_neg h0] at hpe
        have hne : p.id ≠ current.reviewee_id := by
          rw [← hpe]
          exact fun hc => h0 (beq_iff_eq.mpr hc)
        exact absurd hid hne

/-- exReviewDB is a one-review, one-profile store for user U. -/
def exReviewDB : ReviewService.ReviewDB :=
  { reviews := [exReview],
    profiles := [{ id := "U", average_rating := 3, total_reviews := 1 }] }

/-- C10 witness: the recompute-guard theorem at a concrete store and an
update that omits the rating, leaving the profile untouched. -/
theorem review_update_recompute_guard_witness :
    exReviewDB.reviews.find? (fun r => r.id == "r1") = some exReview ∧
    ReviewService.ratingChangeCond none exReview.rating = false ∧
    (ReviewService.updateState exReviewDB "r1" none).1.profiles =
      exReviewDB.profiles :=
  ⟨by decide, rfl,
    ((review_update_recompute_guard exReviewDB "r1" none).2 exReview
      (by decide)).1 rfl⟩
